import Mathlib

/-!
Verification development for the compute-node reconciliation controller
(`pkg/controllers/compute_node_controller.go`).

The Go code is shallow-embedded: every pure helper becomes a Lean
function over the same data laid out as Lean structures; in-place slice
mutation becomes a function returning the new list; the wall clock read
by the code (`time.Now()`) becomes an explicit `now : Nat` parameter;
the cluster-store calls made by the orchestrator and the
create-or-update reconcilers become explicit oracle inputs (the outcome
each call would have produced), so the control flow of the Go functions
can be stated and proved over all possible call outcomes.

String-typed enumerations of the Kubernetes API (pod phases, condition
kinds, condition statuses, service types) are embedded as distinct
string constants, mirroring the string-keyed types of the source.
-/

namespace ComputeNodeController

/-- Condition status strings (`v1alpha1.ConditionStatusTrue` and the
corev1 condition statuses share the value `"True"`). -/
def ConditionStatusTrue : String := "True"

def ConditionStatusFalse : String := "False"

/-- Pod phase `corev1.PodRunning`. -/
def PodRunning : String := "Running"

def PodPendingPhase : String := "Pending"

def PodFailedPhase : String := "Failed"

def PodUnknownPhase : String := "Unknown"

def PodSucceededPhase : String := "Succeeded"

/-- Pod condition kind `corev1.PodScheduled`. -/
def PodScheduledType : String := "PodScheduled"

def PodInitializedType : String := "Initialized"

def ContainersReadyType : String := "ContainersReady"

def PodReadyType : String := "Ready"

/-- Modelled from the spec: the compute-node condition type enumeration
of the `v1alpha1` api package (not under `src/`); the spec's data model
lists the seven types Unknown, Pending, Deployed, Initialized, Started,
Ready, Failed. Only distinctness of the values matters below. -/
def ComputeNodeConditionUnknown : String := "Unknown"

def ComputeNodeConditionPending : String := "Pending"

def ComputeNodeConditionDeployed : String := "Deployed"

def ComputeNodeConditionInitialized : String := "Initialized"

def ComputeNodeConditionStarted : String := "Started"

def ComputeNodeConditionReady : String := "Ready"

def ComputeNodeConditionFailed : String := "Failed"

/-- Modelled from the spec: the compute-node phase enumeration of the
`v1alpha1` api package (Ready | NotReady). -/
def ComputeNodeStatusReady : String := "Ready"

def ComputeNodeStatusNotReady : String := "NotReady"

/-- Service type `corev1.ServiceTypeClusterIP`. -/
def ServiceTypeClusterIP : String := "ClusterIP"

def ServiceTypeNodePort : String := "NodePort"

def ServiceTypeLoadBalancer : String := "LoadBalancer"

def ServiceTypeExternalName : String := "ExternalName"

/-- Modelled from the spec: `v1alpha1.PortBinding` of the api package
(not under `src/`); the spec's data model gives its fields: name,
container port, service port, transport protocol, optional
externally-assigned node port (0 = unassigned). -/
structure PortBinding where
  name : String
  containerPort : Int
  servicePort : Int
  protocol : String
  nodePort : Int
deriving Repr, DecidableEq

/-- `corev1.ServicePort` (the fields the controller touches). -/
structure ServicePort where
  name : String
  targetPort : Int
  port : Int
  protocol : String
  nodePort : Int
deriving Repr, DecidableEq

/-- `corev1.PodCondition` (the fields the controller reads). -/
structure PodCondition where
  type : String
  status : String
deriving Repr, DecidableEq

/-- `corev1.ContainerStatus` (the fields the controller reads). -/
structure ContainerStatus where
  name : String
  ready : Bool
deriving Repr, DecidableEq

/-- `corev1.PodStatus` (the fields the controller reads). -/
structure PodStatus where
  phase : String
  conditions : List PodCondition
  containerStatuses : List ContainerStatus
deriving Repr, DecidableEq

/-- A pod as observed by the controller. -/
structure Pod where
  status : PodStatus
deriving Repr, DecidableEq

/-- `v1alpha1.ComputeNodeCondition`; `metav1.Time` values are embedded
as `Nat` (0 is the zero time). -/
structure ComputeNodeCondition where
  type : String
  status : String
  lastUpdateTime : Nat
  lastTransitionTime : Nat
  reason : String
  message : String
deriving Repr, DecidableEq

/-- The Go zero value `var cond v1alpha1.ComputeNodeCondition`. -/
def zeroCondition : ComputeNodeCondition :=
  { type := "", status := "", lastUpdateTime := 0, lastTransitionTime := 0,
    reason := "", message := "" }

/-- The load-balancer part of `v1alpha1.ComputeNodeStatus`; ingress
entries are embedded opaquely as strings. -/
structure LoadBalancerStatus where
  clusterIP : String
  ingress : List String
deriving Repr, DecidableEq

structure ComputeNodeStatus where
  phase : String
  ready : String
  readyInstances : Nat
  conditions : List ComputeNodeCondition
  loadBalancer : LoadBalancerStatus
deriving Repr, DecidableEq

/-- Modelled from the spec: the `v1alpha1.ComputeNodeSpec` fields this
controller reads or mutates (desired service exposure mode, replica
count, port bindings). -/
structure ComputeNodeSpec where
  serviceType : String
  replicas : Int
  portBindings : List PortBinding
deriving Repr, DecidableEq

structure ComputeNode where
  spec : ComputeNodeSpec
  status : ComputeNodeStatus
deriving Repr, DecidableEq

/-- `corev1.ServiceSpec` (the fields the controller touches). -/
structure ServiceSpec where
  clusterIP : String
  clusterIPs : List String
  ports : List ServicePort
deriving Repr, DecidableEq

/-- A live `corev1.Service`: its spec plus the load-balancer ingress of
its status. -/
structure KService where
  spec : ServiceSpec
  ingress : List String
deriving Repr, DecidableEq

/-- `updateServiceClusterIP` (lines 206-213): walks the bindings and,
at the FIRST binding whose node port is nonzero, sets it to 0 and
breaks out of the loop. The in-place slice mutation is rendered as a
function returning the new list. -/
def updateServiceClusterIP : List PortBinding → List PortBinding
  | [] => []
  | pb :: rest =>
    if pb.nodePort ≠ 0 then { pb with nodePort := 0 } :: rest
    else pb :: updateServiceClusterIP rest

/-- The body of the outer loop of `updateServiceNodePort` for one live
service port `sp`: scan the bindings for the first one with the same
name; if its node port is 0 adopt `sp`'s node port; then break. -/
def adoptNodePort (sp : ServicePort) : List PortBinding → List PortBinding
  | [] => []
  | pb :: rest =>
    if pb.name = sp.name then
      (if pb.nodePort = 0 then { pb with nodePort := sp.nodePort } else pb) :: rest
    else pb :: adoptNodePort sp rest

/-- `updateServiceNodePort` (lines 193-204): for each live service port
in order, run the inner binding scan (`adoptNodePort`). -/
def updateServiceNodePort (portBindings : List PortBinding)
    (svcports : List ServicePort) : List PortBinding :=
  svcports.foldl (fun acc sp => adoptNodePort sp acc) portBindings

/-- The service port literal built inside `updateNodePorts` for a
name-matched pair, including the conditional node-port carry-over
(`if svcports[sp].NodePort != 0`, otherwise the zero value stays). -/
def buildServicePort (pb : PortBinding) (sp : ServicePort) : ServicePort :=
  { name := pb.name, targetPort := pb.containerPort, port := pb.servicePort,
    protocol := pb.protocol,
    nodePort := if sp.nodePort ≠ 0 then sp.nodePort else 0 }

/-- `updateNodePorts` (lines 215-234): nested loops over bindings and
live ports, appending one rebuilt port per name-matched pair. -/
def updateNodePorts (portbindings : List PortBinding)
    (svcports : List ServicePort) : List ServicePort :=
  portbindings.foldl (fun ports pb =>
    svcports.foldl (fun ports sp =>
      if pb.name = sp.name then ports ++ [buildServicePort pb sp] else ports)
      ports)
    []

/-- `updateService` (lines 165-191), with the external manifest builder
(`r.Service.Build`) passed as a function and the two `r.Update` calls
assumed to succeed: returns the compute-node spec persisted to the
parent resource together with the service object sent to the store. -/
def updateService (spec : ComputeNodeSpec) (cur : ServiceSpec)
    (build : ComputeNodeSpec → ServiceSpec) : ComputeNodeSpec × ServiceSpec :=
  let spec1 :=
    if spec.serviceType = ServiceTypeClusterIP then
      { spec with portBindings := updateServiceClusterIP spec.portBindings }
    else if spec.serviceType = ServiceTypeExternalName ∨
        spec.serviceType = ServiceTypeLoadBalancer ∨
        spec.serviceType = ServiceTypeNodePort then
      { spec with portBindings := updateServiceNodePort spec.portBindings cur.ports }
    else spec
  let exp := build spec1
  let exp := { exp with clusterIP := cur.clusterIP, clusterIPs := cur.clusterIPs }
  let exp :=
    if spec1.serviceType = ServiceTypeNodePort then
      { exp with ports := updateNodePorts spec1.portBindings cur.ports }
    else exp
  (spec1, exp)

lemma updateServiceClusterIP_append (l : List PortBinding) (b : PortBinding)
    (r : List PortBinding) (hzero : ∀ x ∈ l, x.nodePort = 0) (hb : b.nodePort ≠ 0) :
    updateServiceClusterIP (l ++ b :: r) = l ++ { b with nodePort := 0 } :: r := by
  induction l with
  | nil => simp [updateServiceClusterIP, hb]
  | cons x l ih =>
    have hx : x.nodePort = 0 := hzero x (by simp)
    simp only [List.cons_append, updateServiceClusterIP, hx]
    simp [ih fun y hy => hzero y (by simp [hy])]

/-- C1 (counterexample): with two bindings both carrying a nonzero node
port, `updateServiceClusterIP` clears only the first one — binding
`"b"` still has node port 30002 afterwards, refuting the claim that
every nonzero node port is cleared. -/
theorem updateServiceClusterIP_counterexample :
    (∀ pb ∈ ([⟨"a", 1, 1, "TCP", 30001⟩, ⟨"b", 2, 2, "TCP", 30002⟩] :
        List PortBinding), pb.nodePort ≠ 0) ∧
    ¬ (∀ pb ∈ updateServiceClusterIP
        [⟨"a", 1, 1, "TCP", 30001⟩, ⟨"b", 2, 2, "TCP", 30002⟩], pb.nodePort = 0) ∧
    updateServiceClusterIP [⟨"a", 1, 1, "TCP", 30001⟩, ⟨"b", 2, 2, "TCP", 30002⟩] =
      [⟨"a", 1, 1, "TCP", 0⟩, ⟨"b", 2, 2, "TCP", 30002⟩] := by
  decide

/-- C1 (amended): when the desired exposure mode is ClusterIP, service
reconciliation clears exactly the FIRST port binding with a nonzero
node port (bindings after it keep their node ports); in particular when
at most one binding carries a nonzero node port every binding ends with
node port 0, and the mutated spec is the one persisted back to the
parent resource by `updateService`. -/
theorem clusterIP_switch_clears_first_nonzero (spec : ComputeNodeSpec)
    (cur : ServiceSpec) (build : ComputeNodeSpec → ServiceSpec)
    (l r : List PortBinding) (b : PortBinding)
    (hst : spec.serviceType = ServiceTypeClusterIP)
    (hzero : ∀ x ∈ l, x.nodePort = 0) (hb : b.nodePort ≠ 0) :
    updateServiceClusterIP (l ++ b :: r) = l ++ { b with nodePort := 0 } :: r ∧
    ((∀ x ∈ r, x.nodePort = 0) →
      ∀ x ∈ updateServiceClusterIP (l ++ b :: r), x.nodePort = 0) ∧
    (updateService spec cur build).1 =
      { spec with portBindings := updateServiceClusterIP spec.portBindings } := by
  refine ⟨updateServiceClusterIP_append l b r hzero hb, ?_, ?_⟩
  · intro hr x hx
    rw [updateServiceClusterIP_append l b r hzero hb] at hx
    rcases List.mem_append.mp hx with h | h
    · exact hzero x h
    · rcases List.mem_cons.mp h with rfl | h
      · rfl
      · exact hr x h
  · simp [updateService, hst]

theorem clusterIP_switch_clears_first_nonzero_witness :
    updateServiceClusterIP
        ([⟨"a", 1, 1, "TCP", 0⟩] ++ (⟨"b", 2, 2, "TCP", 30001⟩ : PortBinding) :: []) =
      [⟨"a", 1, 1, "TCP", 0⟩] ++ (⟨"b", 2, 2, "TCP", 0⟩ : PortBinding) :: [] :=
  (clusterIP_switch_clears_first_nonzero
    ⟨ServiceTypeClusterIP, 1, [⟨"a", 1, 1, "TCP", 0⟩, ⟨"b", 2, 2, "TCP", 30001⟩]⟩
    ⟨"", [], []⟩ (fun _ => ⟨"", [], []⟩)
    [⟨"a", 1, 1, "TCP", 0⟩] [] ⟨"b", 2, 2, "TCP", 30001⟩
    rfl (by decide) (by decide)).1

lemma adoptNodePort_find_ne (sp : ServicePort) (n : String) (l : List PortBinding)
    (h : n ≠ sp.name) :
    (adoptNodePort sp l).find? (fun b => decide (b.name = n)) =
      l.find? (fun b => decide (b.name = n)) := by
  induction l with
  | nil => rfl
  | cons pb rest ih =>
    by_cases hp : pb.name = sp.name
    · have hn : ¬ pb.name = n := fun he => h (he ▸ hp)
      simp only [adoptNodePort, if_pos hp]
      by_cases h0 : pb.nodePort = 0
      · rw [if_pos h0, List.find?_cons_of_neg _ (by simp [hn]),
          List.find?_cons_of_neg _ (by simp [hn])]
      · rw [if_neg h0]
    · simp only [adoptNodePort, if_neg hp]
      by_cases hn : pb.name = n
      · rw [List.find?_cons_of_pos _ (by simp [hn]),
          List.find?_cons_of_pos _ (by simp [hn])]
      · rw [List.find?_cons_of_neg _ (by simp [hn]),
          List.find?_cons_of_neg _ (by simp [hn])]
        exact ih

lemma adoptNodePort_find_eq (sp : ServicePort) (l : List PortBinding)
    (pb : PortBinding)
    (h : l.find? (fun b => decide (b.name = sp.name)) = some pb) :
    (adoptNodePort sp l).find? (fun b => decide (b.name = sp.name)) =
      some (if pb.nodePort = 0 then { pb with nodePort := sp.nodePort } else pb) := by
  induction l with
  | nil => simp at h
  | cons x rest ih =>
    by_cases hx : x.name = sp.name
    · rw [List.find?_cons_of_pos _ (by simp [hx])] at h
      cases h
      simp only [adoptNodePort, if_pos hx]
      by_cases h0 : pb.nodePort = 0
      · rw [if_pos h0, List.find?_cons_of_pos _ (by simp [hx])]
      · rw [if_neg h0, List.find?_cons_of_pos _ (by simp [hx])]
    · rw [List.find?_cons_of_neg _ (by simp [hx])] at h
      simp only [adoptNodePort, if_neg hx]
      rw [List.find?_cons_of_neg _ (by simp [hx])]
      exact ih h

lemma foldl_adopt_find_ne (sps : List ServicePort) (n : String) :
    ∀ acc : List PortBinding, (∀ sp ∈ sps, sp.name ≠ n) →
    (sps.foldl (fun a sp => adoptNodePort sp a) acc).find?
        (fun b => decide (b.name = n)) =
      acc.find? (fun b => decide (b.name = n)) := by
  induction sps with
  | nil => intro acc _; rfl
  | cons sp rest ih =>
    intro acc h
    rw [List.foldl_cons, ih _ fun s hs => h s (by simp [hs]),
      adoptNodePort_find_ne sp n acc fun he => h sp (by simp) he.symm]

lemma find_binding_of_mem (l : List PortBinding) (pb : PortBinding) (n : String)
    (hmem : pb ∈ l) (hn : pb.name = n)
    (hnd : (l.map PortBinding.name).Nodup) :
    l.find? (fun b => decide (b.name = n)) = some pb := by
  induction l with
  | nil => cases hmem
  | cons x rest ih =>
    rw [List.map_cons, List.nodup_cons] at hnd
    rcases List.mem_cons.mp hmem with rfl | hmem'
    · rw [List.find?_cons_of_pos _ (by simp [hn])]
    · have hxn : ¬ x.name = n := fun he => hnd.1 (by
        rw [he, ← hn]
        exact List.mem_map_of_mem _ hmem')
      rw [List.find?_cons_of_neg _ (by simp [hxn])]
      exact ih hmem' hnd.2

lemma updateServiceNodePort_find (sps : List ServicePort) :
    ∀ (pbs : List PortBinding) (sp : ServicePort) (pb : PortBinding),
    (sps.map ServicePort.name).Nodup → sp ∈ sps →
    pbs.find? (fun b => decide (b.name = sp.name)) = some pb →
    (updateServiceNodePort pbs sps).find? (fun b => decide (b.name = sp.name)) =
      some (if pb.nodePort = 0 then { pb with nodePort := sp.nodePort } else pb) := by
  induction sps with
  | nil =>
    intro _ sp _ _ hmem _
    cases hmem
  | cons sp0 rest ih =>
    intro pbs sp pb hnd hmem hfind
    rw [List.map_cons, List.nodup_cons] at hnd
    rcases List.mem_cons.mp hmem with rfl | hmem'
    · have hrest : ∀ s ∈ rest, s.name ≠ sp.name := by
        intro s hs he
        exact hnd.1 (he ▸ List.mem_map_of_mem _ hs)
      unfold updateServiceNodePort
      rw [List.foldl_cons, foldl_adopt_find_ne rest sp.name _ hrest]
      exact adoptNodePort_find_eq sp pbs pb hfind
    · have hne : sp.name ≠ sp0.name := by
        intro he
        exact hnd.1 (he ▸ List.mem_map_of_mem _ hmem')
      have hfind' :
          (adoptNodePort sp0 pbs).find? (fun b => decide (b.name = sp.name)) =
            some pb := by
        rw [adoptNodePort_find_ne sp0 sp.name pbs hne]
        exact hfind
      unfold updateServiceNodePort at ih ⊢
      rw [List.foldl_cons]
      exact ih (adoptNodePort sp0 pbs) sp pb hnd.2 hmem' hfind'

lemma mem_inner_rebuild (pb : PortBinding) (sps : List ServicePort) :
    ∀ (acc : List ServicePort) (x : ServicePort),
    x ∈ sps.foldl
        (fun ports sp =>
          if pb.name = sp.name then ports ++ [buildServicePort pb sp] else ports)
        acc →
    x ∈ acc ∨ ∃ sp ∈ sps, pb.name = sp.name ∧ x = buildServicePort pb sp := by
  induction sps with
  | nil => intro acc x h; exact Or.inl h
  | cons sp rest ih =>
    intro acc x h
    rw [List.foldl_cons] at h
    rcases ih _ x h with h' | ⟨sp', hs', he, hx⟩
    · by_cases hn : pb.name = sp.name
      · rw [if_pos hn] at h'
        rcases List.mem_append.mp h' with h'' | h''
        · exact Or.inl h''
        · exact Or.inr ⟨sp, by simp, hn, by simpa using h''⟩
      · rw [if_neg hn] at h'
        exact Or.inl h'
    · exact Or.inr ⟨sp', by simp [hs'], he, hx⟩

lemma inner_rebuild_grows (pb : PortBinding) (sps : List ServicePort) :
    ∀ (acc : List ServicePort) (x : ServicePort), x ∈ acc →
    x ∈ sps.foldl
        (fun ports sp =>
          if pb.name = sp.name then ports ++ [buildServicePort pb sp] else ports)
        acc := by
  induction sps with
  | nil => intro acc x h; exact h
  | cons sp rest ih =>
    intro acc x h
    rw [List.foldl_cons]
    apply ih
    by_cases hn : pb.name = sp.name
    · rw [if_pos hn]
      exact List.mem_append.mpr (Or.inl h)
    · rwa [if_neg hn]

lemma inner_rebuild_adds (pb : PortBinding) (sps : List ServicePort)
    (sp : ServicePort) (hs : sp ∈ sps) (hn : pb.name = sp.name) :
    ∀ acc : List ServicePort,
    buildServicePort pb sp ∈ sps.foldl
        (fun ports sp =>
          if pb.name = sp.name then ports ++ [buildServicePort pb sp] else ports)
        acc := by
  induction sps with
  | nil => cases hs
  | cons sp0 rest ih =>
    intro acc
    rw [List.foldl_cons]
    rcases List.mem_cons.mp hs with rfl | hs'
    · apply inner_rebuild_grows
      rw [if_pos hn]
      exact List.mem_append.mpr (Or.inr (by simp))
    · exact ih hs' _

lemma mem_outer_rebuild (pbs : List PortBinding) (sps : List ServicePort) :
    ∀ (acc : List ServicePort) (x : ServicePort),
    x ∈ pbs.foldl
        (fun ports pb =>
          sps.foldl
            (fun ports sp =>
              if pb.name = sp.name then ports ++ [buildServicePort pb sp] else ports)
            ports)
        acc →
    x ∈ acc ∨ ∃ pb ∈ pbs, ∃ sp ∈ sps, pb.name = sp.name ∧ x = buildServicePort pb sp := by
  induction pbs with
  | nil => intro acc x h; exact Or.inl h
  | cons pb rest ih =>
    intro acc x h
    rw [List.foldl_cons] at h
    rcases ih _ x h with h' | ⟨pb', hp', sp', hs', he, hx⟩
    · rcases mem_inner_rebuild pb sps acc x h' with h'' | ⟨sp', hs', he, hx⟩
      · exact Or.inl h''
      · exact Or.inr ⟨pb, by simp, sp', hs', he, hx⟩
    · exact Or.inr ⟨pb', by simp [hp'], sp', hs', he, hx⟩

lemma outer_rebuild_grows (pbs : List PortBinding) (sps : List ServicePort) :
    ∀ (acc : List ServicePort) (x : ServicePort), x ∈ acc →
    x ∈ pbs.foldl
        (fun ports pb =>
          sps.foldl
            (fun ports sp =>
              if pb.name = sp.name then ports ++ [buildServicePort pb sp] else ports)
            ports)
        acc := by
  induction pbs with
  | nil => intro acc x h; exact h
  | cons pb rest ih =>
    intro acc x h
    rw [List.foldl_cons]
    exact ih _ x (inner_rebuild_grows pb sps acc x h)

lemma outer_rebuild_adds (pbs : List PortBinding) (sps : List ServicePort)
    (pb : PortBinding) (sp : ServicePort)
    (hpb : pb ∈ pbs) (hsp : sp ∈ sps) (hn : pb.name = sp.name) :
    ∀ acc : List ServicePort,
    buildServicePort pb sp ∈ pbs.foldl
        (fun ports pb =>
          sps.foldl
            (fun ports sp =>
              if pb.name = sp.name then ports ++ [buildServicePort pb sp] else ports)
            ports)
        acc := by
  induction pbs with
  | nil => cases hpb
  | cons pb0 rest ih =>
    intro acc
    rw [List.foldl_cons]
    rcases List.mem_cons.mp hpb with rfl | hpb'
    · exact outer_rebuild_grows rest sps _ _ (inner_rebuild_adds pb sps sp hsp hn acc)
    · exact ih hpb' _

lemma buildServicePort_nodePort (pb : PortBinding) (sp : ServicePort) :
    (buildServicePort pb sp).nodePort = sp.nodePort := by
  by_cases h : sp.nodePort = 0 <;> simp [buildServicePort, h]

/-- C2: node-port allocation is first-write-wins. With unique names on
both sides, for every live service port `sp` matched by name to a
binding `pb`: after `updateServiceNodePort` the binding of that name is
`pb` with `sp`'s node port adopted when `pb`'s was 0, and `pb`
unchanged when it was nonzero. Moreover every port rebuilt by
`updateNodePorts` carries the node-port value of the live port it was
matched to, and every name-matched binding/live-port pair contributes
its rebuilt port to the output. -/
theorem nodePort_first_write_wins (pbs : List PortBinding) (sps : List ServicePort)
    (h1 : (pbs.map PortBinding.name).Nodup)
    (h2 : (sps.map ServicePort.name).Nodup) :
    (∀ sp ∈ sps, ∀ pb ∈ pbs, pb.name = sp.name →
      (updateServiceNodePort pbs sps).find? (fun b => decide (b.name = sp.name)) =
        some (if pb.nodePort = 0 then { pb with nodePort := sp.nodePort } else pb)) ∧
    (∀ x ∈ updateNodePorts pbs sps,
      ∃ sp ∈ sps, sp.name = x.name ∧ x.nodePort = sp.nodePort) ∧
    (∀ pb ∈ pbs, ∀ sp ∈ sps, pb.name = sp.name →
      buildServicePort pb sp ∈ updateNodePorts pbs sps) := by
  refine ⟨?_, ?_, ?_⟩
  · intro sp hsp pb hpb hn
    exact updateServiceNodePort_find sps pbs sp pb h2 hsp
      (find_binding_of_mem pbs pb sp.name hpb hn h1)
  · intro x hx
    rcases mem_outer_rebuild pbs sps [] x hx with h | ⟨pb, _, sp, hs, he, hx'⟩
    · cases h
    · refine ⟨sp, hs, ?_, ?_⟩
      · rw [hx']
        simp [buildServicePort, he]
      · rw [hx', buildServicePort_nodePort]
  · intro pb hpb sp hsp hn
    exact outer_rebuild_adds pbs sps pb sp hpb hsp hn []

theorem nodePort_first_write_wins_witness :
    (updateServiceNodePort [⟨"p", 1, 1, "TCP", 0⟩] [⟨"p", 9, 9, "TCP", 30080⟩]).find?
        (fun b => decide (b.name = "p")) =
      some ⟨"p", 1, 1, "TCP", 30080⟩ ∧
    buildServicePort ⟨"p", 1, 1, "TCP", 0⟩ ⟨"p", 9, 9, "TCP", 30080⟩ ∈
      updateNodePorts [⟨"p", 1, 1, "TCP", 0⟩] [⟨"p", 9, 9, "TCP", 30080⟩] := by
  have h := nodePort_first_write_wins [⟨"p", 1, 1, "TCP", 0⟩]
    [⟨"p", 9, 9, "TCP", 30080⟩] (by decide) (by decide)
  refine ⟨?_, h.2.2 _ (by simp) _ (by simp) rfl⟩
  have h1 := h.1 ⟨"p", 9, 9, "TCP", 30080⟩ (by simp) ⟨"p", 1, 1, "TCP", 0⟩ (by simp) rfl
  simpa using h1

/-- The accumulator of the flag-gathering loop at the start of
`getPreferedConditionFromPodConditions` (lines 553-573): four booleans
set while walking the pod's condition list once. -/
structure CondFlags where
  sched : Bool
  initialized : Bool
  conReady : Bool
  ready : Bool
deriving Repr, DecidableEq

/-- One iteration of that loop: each of the four `if` statements sets
its flag when the entry has the matching kind and status `"True"`. -/
def scanStep (f : CondFlags) (c : PodCondition) : CondFlags :=
  let f1 := if c.type = PodScheduledType ∧ c.status = ConditionStatusTrue then
    { f with sched := true } else f
  let f2 := if c.type = PodInitializedType ∧ c.status = ConditionStatusTrue then
    { f1 with initialized := true } else f1
  let f3 := if c.type = ContainersReadyType ∧ c.status = ConditionStatusTrue then
    { f2 with conReady := true } else f2
  if c.type = PodReadyType ∧ c.status = ConditionStatusTrue then
    { f3 with ready := true } else f3

/-- `getPreferedConditionFromPodConditions` (lines 552-600): gather the
four flags, then return a type-only condition by strict priority
Ready, Started, Initialized, Deployed, else the zero condition. -/
def getPreferedConditionFromPodConditions
    (conditions : List PodCondition) : ComputeNodeCondition :=
  let f := conditions.foldl scanStep ⟨false, false, false, false⟩
  if f.ready then { zeroCondition with type := ComputeNodeConditionReady }
  else if f.conReady then { zeroCondition with type := ComputeNodeConditionStarted }
  else if f.initialized then
    { zeroCondition with type := ComputeNodeConditionInitialized }
  else if f.sched then { zeroCondition with type := ComputeNodeConditionDeployed }
  else zeroCondition

/-- `getPreferedConditionFromPod` (lines 530-550): phases Unknown,
Pending and Failed classify directly; any other phase defers to the
sub-condition scan. -/
def getPreferedConditionFromPod (pod : Pod) : ComputeNodeCondition :=
  if pod.status.phase = PodUnknownPhase then
    { zeroCondition with type := ComputeNodeConditionUnknown }
  else if pod.status.phase = PodPendingPhase then
    { zeroCondition with type := ComputeNodeConditionPending }
  else if pod.status.phase = PodFailedPhase then
    { zeroCondition with type := ComputeNodeConditionFailed }
  else getPreferedConditionFromPodConditions pod.status.conditions

/-- Written from the spec's words (4.2): true when some entry of the
pod's condition list has the given kind with status true. -/
def hasTrueCondition (conditions : List PodCondition) (t : String) : Bool :=
  conditions.any fun c => decide (c.type = t ∧ c.status = ConditionStatusTrue)

/-- Written from the spec's words (4.2), to be compared with the source
classifier: phase Unknown, Pending, Failed map to the homonymous types;
otherwise the sub-conditions are inspected in strict priority order
Ready, ContainersReady, Initialized, Scheduled, else the empty type. -/
def specClassifyPod (pod : Pod) : String :=
  if pod.status.phase = PodUnknownPhase then ComputeNodeConditionUnknown
  else if pod.status.phase = PodPendingPhase then ComputeNodeConditionPending
  else if pod.status.phase = PodFailedPhase then ComputeNodeConditionFailed
  else if hasTrueCondition pod.status.conditions PodReadyType then
    ComputeNodeConditionReady
  else if hasTrueCondition pod.status.conditions ContainersReadyType then
    ComputeNodeConditionStarted
  else if hasTrueCondition pod.status.conditions PodInitializedType then
    ComputeNodeConditionInitialized
  else if hasTrueCondition pod.status.conditions PodScheduledType then
    ComputeNodeConditionDeployed
  else ""

lemma scanStep_sched (f : CondFlags) (c : PodCondition) :
    (scanStep f c).sched =
      (f.sched || decide (c.type = PodScheduledType ∧ c.status = ConditionStatusTrue)) := by
  simp only [scanStep]
  split <;> split <;> split <;> split <;> simp_all

lemma scanStep_initialized (f : CondFlags) (c : PodCondition) :
    (scanStep f c).initialized =
      (f.initialized ||
        decide (c.type = PodInitializedType ∧ c.status = ConditionStatusTrue)) := by
  simp only [scanStep]
  split <;> split <;> split <;> split <;> simp_all

lemma scanStep_conReady (f : CondFlags) (c : PodCondition) :
    (scanStep f c).conReady =
      (f.conReady ||
        decide (c.type = ContainersReadyType ∧ c.status = ConditionStatusTrue)) := by
  simp only [scanStep]
  split <;> split <;> split <;> split <;> simp_all

lemma scanStep_ready (f : CondFlags) (c : PodCondition) :
    (scanStep f c).ready =
      (f.ready || decide (c.type = PodReadyType ∧ c.status = ConditionStatusTrue)) := by
  simp only [scanStep]
  split <;> split <;> split <;> split <;> simp_all

lemma foldl_scanStep_sched (conditions : List PodCondition) :
    ∀ f : CondFlags,
    (conditions.foldl scanStep f).sched =
      (f.sched || hasTrueCondition conditions PodScheduledType) := by
  induction conditions with
  | nil => intro f; simp [hasTrueCondition]
  | cons c rest ih =>
    intro f
    rw [List.foldl_cons, ih, scanStep_sched]
    simp [hasTrueCondition, Bool.or_assoc]

lemma foldl_scanStep_initialized (conditions : List PodCondition) :
    ∀ f : CondFlags,
    (conditions.foldl scanStep f).initialized =
      (f.initialized || hasTrueCondition conditions PodInitializedType) := by
  induction conditions with
  | nil => intro f; simp [hasTrueCondition]
  | cons c rest ih =>
    intro f
    rw [List.foldl_cons, ih, scanStep_initialized]
    simp [hasTrueCondition, Bool.or_assoc]

lemma foldl_scanStep_conReady (conditions : List PodCondition) :
    ∀ f : CondFlags,
    (conditions.foldl scanStep f).conReady =
      (f.conReady || hasTrueCondition conditions ContainersReadyType) := by
  induction conditions with
  | nil => intro f; simp [hasTrueCondition]
  | cons c rest ih =>
    intro f
    rw [List.foldl_cons, ih, scanStep_conReady]
    simp [hasTrueCondition, Bool.or_assoc]

lemma foldl_scanStep_ready (conditions : List PodCondition) :
    ∀ f : CondFlags,
    (conditions.foldl scanStep f).ready =
      (f.ready || hasTrueCondition conditions PodReadyType) := by
  induction conditions with
  | nil => intro f; simp [hasTrueCondition]
  | cons c rest ih =>
    intro f
    rw [List.foldl_cons, ih, scanStep_ready]
    simp [hasTrueCondition, Bool.or_assoc]

/-- C6: the classifier equals the mapping the spec states — phase
Unknown, Pending, Failed map directly, any other phase is classified
from the true sub-conditions in strict priority order Ready, Started,
Initialized, Deployed, else the zero/empty type. -/
theorem classifier_matches_spec (pod : Pod) :
    getPreferedConditionFromPod pod =
      { zeroCondition with type := specClassifyPod pod } := by
  unfold getPreferedConditionFromPod specClassifyPod
  by_cases hU : pod.status.phase = PodUnknownPhase
  · rw [if_pos hU, if_pos hU]
  · rw [if_neg hU, if_neg hU]
    by_cases hP : pod.status.phase = PodPendingPhase
    · rw [if_pos hP, if_pos hP]
    · rw [if_neg hP, if_neg hP]
      by_cases hF : pod.status.phase = PodFailedPhase
      · rw [if_pos hF, if_pos hF]
      · rw [if_neg hF, if_neg hF]
        simp only [getPreferedConditionFromPodConditions, foldl_scanStep_sched,
          foldl_scanStep_initialized, foldl_scanStep_conReady,
          foldl_scanStep_ready, Bool.false_or]
        by_cases h1 : hasTrueCondition pod.status.conditions PodReadyType = true
        · simp [h1]
        · by_cases h2 :
            hasTrueCondition pod.status.conditions ContainersReadyType = true
          · simp [h1, h2]
          · by_cases h3 :
              hasTrueCondition pod.status.conditions PodInitializedType = true
            · simp [h1, h2, h3]
            · by_cases h4 :
                hasTrueCondition pod.status.conditions PodScheduledType = true
              · simp [h1, h2, h3, h4]
              · simp [h1, h2, h3, h4, zeroCondition]

/-- `newCondition` (lines 417-426); the two `time.Now()` reads are the
injected `now`. -/
def newCondition (t reason message : String) (now : Nat) : ComputeNodeCondition :=
  { type := t, status := ConditionStatusTrue, lastUpdateTime := now,
    lastTransitionTime := now, reason := reason, message := message }

def newConditionUnknown (reason message : String) (now : Nat) : ComputeNodeCondition :=
  newCondition ComputeNodeConditionUnknown reason message now

def newConditionPending (reason message : String) (now : Nat) : ComputeNodeCondition :=
  newCondition ComputeNodeConditionPending reason message now

def newConditionDeployed (reason message : String) (now : Nat) : ComputeNodeCondition :=
  newCondition ComputeNodeConditionDeployed reason message now

def newConditionStarted (reason message : String) (now : Nat) : ComputeNodeCondition :=
  newCondition ComputeNodeConditionStarted reason message now

def newConditionInitialized (reason message : String) (now : Nat) :
    ComputeNodeCondition :=
  newCondition ComputeNodeConditionInitialized reason message now

def newConditionReady (reason message : String) (now : Nat) : ComputeNodeCondition :=
  newCondition ComputeNodeConditionReady reason message now

def newConditionFailed (reason message : String) (now : Nat) : ComputeNodeCondition :=
  newCondition ComputeNodeConditionFailed reason message now

/-- The count the `result` map of `getConditionFromPods` holds under
key `t` after the counting loop (lines 493-497). -/
def countType (podlist : List Pod) (t : String) : Nat :=
  (podlist.filter fun p => decide ((getPreferedConditionFromPod p).type = t)).length

/-- `getConditionFromPods` (lines 488-528): empty list is Unknown with
reason PodNotFound; all-Unknown is Unknown; otherwise the first
populated count among Ready, Started, Initialized, Deployed, Pending,
Failed wins; with no count populated the zero condition falls out. -/
def getConditionFromPods (podlist : List Pod) (now : Nat) : ComputeNodeCondition :=
  if podlist.length = 0 then newConditionUnknown "PodNotFound" "No pod was found" now
  else if countType podlist ComputeNodeConditionUnknown = podlist.length then
    newConditionUnknown "PodUnknown" "All pods are unknown" now
  else if 0 < countType podlist ComputeNodeConditionReady then
    newConditionReady "PodReady" "Some pods are ready" now
  else if 0 < countType podlist ComputeNodeConditionStarted then
    newConditionStarted "PodStarted" "Some pods are started" now
  else if 0 < countType podlist ComputeNodeConditionInitialized then
    newConditionInitialized "PodInitialized" "Some pods are initialized" now
  else if 0 < countType podlist ComputeNodeConditionDeployed then
    newConditionDeployed "PodDeployed" "Some pods are deployed" now
  else if 0 < countType podlist ComputeNodeConditionPending then
    newConditionPending "PodPending" "Some pods are pending" now
  else if 0 < countType podlist ComputeNodeConditionFailed then
    newConditionFailed "PodFailed" "Some pods are failed" now
  else zeroCondition

/-- Written from the spec's words (4.3), to be compared with the source
rollup: a first-match priority chain over membership tests — empty set
is Unknown (PodNotFound), all pods Unknown is Unknown, then any Ready,
any Started, any Initialized, any Deployed, any Pending, any Failed,
else nothing matched. -/
def specRollup (podlist : List Pod) (now : Nat) : ComputeNodeCondition :=
  if podlist.isEmpty then newConditionUnknown "PodNotFound" "No pod was found" now
  else if ∀ p ∈ podlist,
      (getPreferedConditionFromPod p).type = ComputeNodeConditionUnknown then
    newConditionUnknown "PodUnknown" "All pods are unknown" now
  else if ∃ p ∈ podlist,
      (getPreferedConditionFromPod p).type = ComputeNodeConditionReady then
    newConditionReady "PodReady" "Some pods are ready" now
  else if ∃ p ∈ podlist,
      (getPreferedConditionFromPod p).type = ComputeNodeConditionStarted then
    newConditionStarted "PodStarted" "Some pods are started" now
  else if ∃ p ∈ podlist,
      (getPreferedConditionFromPod p).type = ComputeNodeConditionInitialized then
    newConditionInitialized "PodInitialized" "Some pods are initialized" now
  else if ∃ p ∈ podlist,
      (getPreferedConditionFromPod p).type = ComputeNodeConditionDeployed then
    newConditionDeployed "PodDeployed" "Some pods are deployed" now
  else if ∃ p ∈ podlist,
      (getPreferedConditionFromPod p).type = ComputeNodeConditionPending then
    newConditionPending "PodPending" "Some pods are pending" now
  else if ∃ p ∈ podlist,
      (getPreferedConditionFromPod p).type = ComputeNodeConditionFailed then
    newConditionFailed "PodFailed" "Some pods are failed" now
  else zeroCondition

lemma countType_eq_countP (podlist : List Pod) (t : String) :
    countType podlist t =
      podlist.countP fun p => decide ((getPreferedConditionFromPod p).type = t) := by
  rw [countType, List.countP_eq_length_filter]

lemma countType_eq_length_iff (podlist : List Pod) (t : String) :
    countType podlist t = podlist.length ↔
      ∀ p ∈ podlist, (getPreferedConditionFromPod p).type = t := by
  rw [countType_eq_countP, List.countP_eq_length]
  simp

lemma countType_pos_iff (podlist : List Pod) (t : String) :
    0 < countType podlist t ↔
      ∃ p ∈ podlist, (getPreferedConditionFromPod p).type = t := by
  rw [countType_eq_countP, List.countP_pos_iff]
  simp

/-- C3: the per-resource rollup equals the priority chain the spec
states, expressed over membership rather than counts; in particular a
pod list containing a Ready-classified pod always rolls up to Ready. -/
theorem rollup_matches_spec (podlist : List Pod) (now : Nat) :
    getConditionFromPods podlist now = specRollup podlist now ∧
    (∀ p ∈ podlist,
      (getPreferedConditionFromPod p).type = ComputeNodeConditionReady →
      getConditionFromPods podlist now =
        newConditionReady "PodReady" "Some pods are ready" now) := by
  constructor
  · unfold getConditionFromPods specRollup
    by_cases h0 : podlist.length = 0
    · rw [if_pos h0, if_pos (List.isEmpty_iff.mpr (List.length_eq_zero.mp h0))]
    · have h0' : ¬ podlist.isEmpty = true := by
        intro he
        exact h0 (by rw [List.isEmpty_iff.mp he]; rfl)
      rw [if_neg h0, if_neg h0']
      by_cases h1 : countType podlist ComputeNodeConditionUnknown = podlist.length
      · rw [if_pos h1, if_pos ((countType_eq_length_iff podlist _).mp h1)]
      · rw [if_neg h1, if_neg (fun ha =>
          h1 ((countType_eq_length_iff podlist _).mpr ha))]
        by_cases h2 : 0 < countType podlist ComputeNodeConditionReady
        · rw [if_pos h2, if_pos ((countType_pos_iff podlist _).mp h2)]
        · rw [if_neg h2, if_neg (fun ha =>
            h2 ((countType_pos_iff podlist _).mpr ha))]
          by_cases h3 : 0 < countType podlist ComputeNodeConditionStarted
          · rw [if_pos h3, if_pos ((countType_pos_iff podlist _).mp h3)]
          · rw [if_neg h3, if_neg (fun ha =>
              h3 ((countType_pos_iff podlist _).mpr ha))]
            by_cases h4 : 0 < countType podlist ComputeNodeConditionInitialized
            · rw [if_pos h4, if_pos ((countType_pos_iff podlist _).mp h4)]
            · rw [if_neg h4, if_neg (fun ha =>
                h4 ((countType_pos_iff podlist _).mpr ha))]
              by_cases h5 : 0 < countType podlist ComputeNodeConditionDeployed
              · rw [if_pos h5, if_pos ((countType_pos_iff podlist _).mp h5)]
              · rw [if_neg h5, if_neg (fun ha =>
                  h5 ((countType_pos_iff podlist _).mpr ha))]
                by_cases h6 : 0 < countType podlist ComputeNodeConditionPending
                · rw [if_pos h6, if_pos ((countType_pos_iff podlist _).mp h6)]
                · rw [if_neg h6, if_neg (fun ha =>
                    h6 ((countType_pos_iff podlist _).mpr ha))]
                  by_cases h7 : 0 < countType podlist ComputeNodeConditionFailed
                  · rw [if_pos h7, if_pos ((countType_pos_iff podlist _).mp h7)]
                  · rw [if_neg h7, if_neg (fun ha =>
                      h7 ((countType_pos_iff podlist _).mpr ha))]
  · intro p hp hready
    have hne : ¬ podlist.length = 0 := by
      intro he
      rw [List.length_eq_zero.mp he] at hp
      cases hp
    have hnotall :
        ¬ countType podlist ComputeNodeConditionUnknown = podlist.length := by
      intro hall
      have := (countType_eq_length_iff podlist _).mp hall p hp
      rw [hready] at this
      simp [ComputeNodeConditionReady, ComputeNodeConditionUnknown] at this
    have hpos : 0 < countType podlist ComputeNodeConditionReady :=
      (countType_pos_iff podlist _).mpr ⟨p, hp, hready⟩
    unfold getConditionFromPods
    rw [if_neg hne, if_neg hnotall, if_pos hpos]

theorem rollup_matches_spec_witness :
    getConditionFromPods
        [⟨⟨PodRunning, [⟨PodReadyType, ConditionStatusTrue⟩], []⟩⟩,
         ⟨⟨PodFailedPhase, [], []⟩⟩] 7 =
      newConditionReady "PodReady" "Some pods are ready" 7 :=
  (rollup_matches_spec
      [⟨⟨PodRunning, [⟨PodReadyType, ConditionStatusTrue⟩], []⟩⟩,
       ⟨⟨PodFailedPhase, [], []⟩⟩] 7).2
    ⟨⟨PodRunning, [⟨PodReadyType, ConditionStatusTrue⟩], []⟩⟩ (by simp)
    (by decide)

/-- The mutation `updateComputeNodeStatusCondition` (lines 608-618)
applies to an entry whose type differs from the merged condition's: an
Unknown merge forces the entry false and refreshes its update time; a
non-Unknown merge forces an Unknown entry false and in all cases
refreshes the entry's update time. -/
def mergeOther (cond c : ComputeNodeCondition) : ComputeNodeCondition :=
  if cond.type = ComputeNodeConditionUnknown then
    { c with lastUpdateTime := cond.lastUpdateTime, status := ConditionStatusFalse }
  else
    let c1 := if c.type = ComputeNodeConditionUnknown then
      { c with status := ConditionStatusFalse } else c
    { c1 with lastUpdateTime := cond.lastUpdateTime }

/-- `updateComputeNodeStatusCondition` (lines 602-627): every entry of
the merged type is replaced by the merged condition (the loop has no
break), every other entry gets `mergeOther`, and when no entry of the
merged type existed the condition is appended. -/
def updateComputeNodeStatusCondition (conditions : List ComputeNodeCondition)
    (cond : ComputeNodeCondition) : List ComputeNodeCondition :=
  let updated := conditions.map fun c =>
    if c.type = cond.type then cond else mergeOther cond c
  let found := conditions.any fun c => decide (c.type = cond.type)
  if conditions.length = 0 ∨ found = false then updated ++ [cond] else updated

lemma mergeOther_type (cond c : ComputeNodeCondition) :
    (mergeOther cond c).type = c.type := by
  unfold mergeOther
  by_cases h : cond.type = ComputeNodeConditionUnknown
  · rw [if_pos h]
  · rw [if_neg h]
    by_cases h' : c.type = ComputeNodeConditionUnknown <;> simp [h']

lemma mem_update_cases (conditions : List ComputeNodeCondition)
    (cond c : ComputeNodeCondition)
    (h : c ∈ updateComputeNodeStatusCondition conditions cond) :
    c = cond ∨ ∃ c0 ∈ conditions,
      c = if c0.type = cond.type then cond else mergeOther cond c0 := by
  simp only [updateComputeNodeStatusCondition] at h
  by_cases hf : conditions.length = 0 ∨
      (conditions.any fun c => decide (c.type = cond.type)) = false
  · rw [if_pos hf] at h
    rcases List.mem_append.mp h with h' | h'
    · rcases List.mem_map.mp h' with ⟨c0, hc0, he⟩
      exact Or.inr ⟨c0, hc0, he.symm⟩
    · exact Or.inl (by simpa using h')
  · rw [if_neg hf] at h
    rcases List.mem_map.mp h with ⟨c0, hc0, he⟩
    exact Or.inr ⟨c0, hc0, he.symm⟩

/-- C4: Unknown exclusivity of the history merge. Merging an Unknown
condition forces every other entry's status to False and refreshes its
update time; merging a non-Unknown (asserted-true) condition forces any
Unknown entry to False while every entry of the merged type carries
status True. -/
theorem unknown_exclusivity (conditions : List ComputeNodeCondition)
    (cond : ComputeNodeCondition) :
    (cond.type = ComputeNodeConditionUnknown →
      ∀ c ∈ updateComputeNodeStatusCondition conditions cond,
        c.type ≠ cond.type →
        c.status = ConditionStatusFalse ∧
        c.lastUpdateTime = cond.lastUpdateTime) ∧
    (cond.type ≠ ComputeNodeConditionUnknown →
      cond.status = ConditionStatusTrue →
      (∀ c ∈ updateComputeNodeStatusCondition conditions cond,
        c.type = ComputeNodeConditionUnknown →
        c.status = ConditionStatusFalse) ∧
      (∀ c ∈ updateComputeNodeStatusCondition conditions cond,
        c.type = cond.type → c.status = ConditionStatusTrue)) := by
  constructor
  · intro hU c hc hne
    rcases mem_update_cases conditions cond c hc with rfl | ⟨c0, _, he⟩
    · exact absurd rfl hne
    · by_cases h0 : c0.type = cond.type
      · rw [if_pos h0] at he
        exact absurd (he ▸ rfl) hne
      · rw [if_neg h0] at he
        rw [he]
        unfold mergeOther
        rw [if_pos hU]
        exact ⟨rfl, rfl⟩
  · intro hNU hT
    constructor
    · intro c hc hcU
      rcases mem_update_cases conditions cond c hc with rfl | ⟨c0, _, he⟩
      · exact absurd hcU hNU
      · by_cases h0 : c0.type = cond.type
        · rw [if_pos h0] at he
          rw [he] at hcU
          exact absurd hcU hNU
        · rw [if_neg h0] at he
          have htype : c0.type = ComputeNodeConditionUnknown := by
            rw [he, mergeOther_type] at hcU
            exact hcU
          rw [he]
          unfold mergeOther
          rw [if_neg hNU]
          simp [htype]
    · intro c hc hct
      rcases mem_update_cases conditions cond c hc with rfl | ⟨c0, _, he⟩
      · exact hT
      · by_cases h0 : c0.type = cond.type
        · rw [if_pos h0] at he
          rw [he]
          exact hT
        · rw [if_neg h0] at he
          rw [he, mergeOther_type] at hct
          exact absurd hct h0

theorem unknown_exclusivity_witness :
    (⟨ComputeNodeConditionReady, ConditionStatusFalse, 5, 1, "", ""⟩ :
        ComputeNodeCondition).status = ConditionStatusFalse ∧
    (⟨ComputeNodeConditionReady, ConditionStatusFalse, 5, 1, "", ""⟩ :
        ComputeNodeCondition).lastUpdateTime =
      (newConditionUnknown "PodUnknown" "All pods are unknown" 5).lastUpdateTime :=
  (unknown_exclusivity
      [⟨ComputeNodeConditionReady, ConditionStatusTrue, 1, 1, "", ""⟩]
      (newConditionUnknown "PodUnknown" "All pods are unknown" 5)).1
    (by decide)
    ⟨ComputeNodeConditionReady, ConditionStatusFalse, 5, 1, "", ""⟩
    (by decide) (by decide)

lemma update_map_type (conditions : List ComputeNodeCondition)
    (cond : ComputeNodeCondition) :
    ((conditions.map fun c =>
        if c.type = cond.type then cond else mergeOther cond c).map
      ComputeNodeCondition.type) = conditions.map ComputeNodeCondition.type := by
  rw [List.map_map]
  apply List.map_congr_left
  intro c _
  by_cases h : c.type = cond.type
  · simp [h, Function.comp]
  · simp [h, Function.comp, mergeOther_type]

lemma update_found_iff (conditions : List ComputeNodeCondition)
    (cond : ComputeNodeCondition) :
    (conditions.any fun c => decide (c.type = cond.type)) = true ↔
      cond.type ∈ conditions.map ComputeNodeCondition.type := by
  simp [List.any_eq_true, List.mem_map]

lemma update_map_type_found (conditions : List ComputeNodeCondition)
    (cond : ComputeNodeCondition)
    (hf : cond.type ∈ conditions.map ComputeNodeCondition.type) :
    (updateComputeNodeStatusCondition conditions cond).map
        ComputeNodeCondition.type = conditions.map ComputeNodeCondition.type := by
  simp only [updateComputeNodeStatusCondition]
  have hne : ¬ (conditions.length = 0 ∨
      (conditions.any fun c => decide (c.type = cond.type)) = false) := by
    rintro (h0 | hfa)
    · rw [List.length_eq_zero.mp h0] at hf
      cases hf
    · rw [(update_found_iff conditions cond).mpr hf] at hfa
      cases hfa
  rw [if_neg hne]
  exact update_map_type conditions cond

lemma update_map_type_not_found (conditions : List ComputeNodeCondition)
    (cond : ComputeNodeCondition)
    (hf : cond.type ∉ conditions.map ComputeNodeCondition.type) :
    (updateComputeNodeStatusCondition conditions cond).map
        ComputeNodeCondition.type =
      conditions.map ComputeNodeCondition.type ++ [cond.type] := by
  simp only [updateComputeNodeStatusCondition]
  have hfa : (conditions.any fun c => decide (c.type = cond.type)) = false := by
    rcases Bool.eq_false_or_eq_true
        (conditions.any fun c => decide (c.type = cond.type)) with h | h
    · exact absurd ((update_found_iff conditions cond).mp h) hf
    · exact h
  rw [if_pos (Or.inr hfa), List.map_append, update_map_type conditions cond]
  rfl

lemma update_nodup (conditions : List ComputeNodeCondition)
    (cond : ComputeNodeCondition)
    (h : (conditions.map ComputeNodeCondition.type).Nodup) :
    ((updateComputeNodeStatusCondition conditions cond).map
        ComputeNodeCondition.type).Nodup := by
  by_cases hf : cond.type ∈ conditions.map ComputeNodeCondition.type
  · rw [update_map_type_found conditions cond hf]
    exact h
  · rw [update_map_type_not_found conditions cond hf]
    simp [List.nodup_append, h, hf]

/-- C5: starting from a type-unique history, any finite sequence of
merges keeps the history type-unique; a merge whose type already exists
leaves the sequence of entry types (hence every entry's position)
unchanged, and a merge whose type is absent appends exactly that one
type at the end, preserving the relative order of all prior entries. -/
theorem history_type_unique (conditions merges : List ComputeNodeCondition)
    (cond : ComputeNodeCondition)
    (h : (conditions.map ComputeNodeCondition.type).Nodup) :
    ((merges.foldl updateComputeNodeStatusCondition conditions).map
        ComputeNodeCondition.type).Nodup ∧
    (cond.type ∈ conditions.map ComputeNodeCondition.type →
      (updateComputeNodeStatusCondition conditions cond).map
          ComputeNodeCondition.type = conditions.map ComputeNodeCondition.type) ∧
    (cond.type ∉ conditions.map ComputeNodeCondition.type →
      (updateComputeNodeStatusCondition conditions cond).map
          ComputeNodeCondition.type =
        conditions.map ComputeNodeCondition.type ++ [cond.type]) := by
  refine ⟨?_, update_map_type_found conditions cond,
    update_map_type_not_found conditions cond⟩
  induction merges generalizing conditions with
  | nil => exact h
  | cons m rest ih =>
    rw [List.foldl_cons]
    exact ih (updateComputeNodeStatusCondition conditions m)
      (update_nodup conditions m h)

theorem history_type_unique_witness :
    (updateComputeNodeStatusCondition
        [⟨ComputeNodeConditionReady, ConditionStatusTrue, 1, 1, "", ""⟩]
        (newConditionPending "PodPending" "Some pods are pending" 3)).map
      ComputeNodeCondition.type =
      ([⟨ComputeNodeConditionReady, ConditionStatusTrue, 1, 1, "", ""⟩] :
          List ComputeNodeCondition).map ComputeNodeCondition.type ++
        [(newConditionPending "PodPending" "Some pods are pending" 3).type] :=
  (history_type_unique
      [⟨ComputeNodeConditionReady, ConditionStatusTrue, 1, 1, "", ""⟩] []
      (newConditionPending "PodPending" "Some pods are pending" 3)
      (by decide)).2.2 (by decide)

/-- `isTrueReadyPod` (lines 337-344): the early-returning loop is the
existence of a Ready sub-condition with status true. -/
def isTrueReadyPod (pod : Pod) : Bool :=
  pod.status.conditions.any fun c =>
    decide (c.type = PodReadyType ∧ c.status = ConditionStatusTrue)

/-- `getReadyProxyInstances` (lines 314-335): count, over running pods
that are true-ready, their ready container statuses named
shardingsphere-proxy (the inner loop counts one per matching container
status). -/
def getReadyProxyInstances (podlist : List Pod) : Nat :=
  podlist.foldl
    (fun cnt pod =>
      if pod.status.phase = PodRunning then
        if isTrueReadyPod pod then
          cnt + (pod.status.containerStatuses.filter fun cs =>
            decide (cs.name = "shardingsphere-proxy" ∧ cs.ready = true)).length
        else cnt
      else cnt)
    0

/-- `reconcileComputeNodeStatus` (lines 629-646), rendered as a pure
function from the read pod list, the live service and the fetched
compute node to the compute node with the status the controller then
writes back (the in-place mutation of `cn` becomes a returned copy). -/
def reconcileComputeNodeStatus (podlist : List Pod) (svc : KService)
    (cn : ComputeNode) (now : Nat) : ComputeNode :=
  let cond := getConditionFromPods podlist now
  let conditions := updateComputeNodeStatusCondition cn.status.conditions cond
  let ready := getReadyProxyInstances podlist
  { cn with status :=
    { cn.status with
      conditions := conditions
      ready := toString ready ++ "/" ++ toString cn.spec.replicas
      readyInstances := ready
      phase := if 0 < ready then ComputeNodeStatusReady else ComputeNodeStatusNotReady
      loadBalancer := { clusterIP := svc.spec.clusterIP, ingress := svc.ingress } } }

/-- C10: when the pod list is non-empty, not all pods classify Unknown
and no pod classifies to any of the seven named types (for example
Running pods with no true sub-conditions), the rollup falls through its
whole chain and returns the zero-valued condition; the history merge
then appends this empty-type entry (when no empty-type entry exists),
so the status published by `reconcileComputeNodeStatus` contains a
condition whose type is the empty string. -/
theorem rollup_fallthrough_empty_type (podlist : List Pod) (svc : KService)
    (cn : ComputeNode) (now : Nat)
    (hne : podlist ≠ [])
    (hnotall : ¬ ∀ p ∈ podlist,
      (getPreferedConditionFromPod p).type = ComputeNodeConditionUnknown)
    (hnone : ∀ p ∈ podlist, ∀ t ∈ [ComputeNodeConditionReady,
      ComputeNodeConditionStarted, ComputeNodeConditionInitialized,
      ComputeNodeConditionDeployed, ComputeNodeConditionPending,
      ComputeNodeConditionFailed], (getPreferedConditionFromPod p).type ≠ t)
    (hclean : ∀ c ∈ cn.status.conditions, c.type ≠ "") :
    getConditionFromPods podlist now = zeroCondition ∧
    (updateComputeNodeStatusCondition cn.status.conditions
        (getConditionFromPods podlist now)).getLast? = some zeroCondition ∧
    ∃ c ∈ (reconcileComputeNodeStatus podlist svc cn now).status.conditions,
      c.type = "" := by
  have hzero : getConditionFromPods podlist now = zeroCondition := by
    have h0 : ¬ podlist.length = 0 := by
      intro h
      exact hne (List.length_eq_zero.mp h)
    have h1 : ¬ countType podlist ComputeNodeConditionUnknown = podlist.length :=
      fun hc => hnotall ((countType_eq_length_iff podlist _).mp hc)
    have hcount : ∀ t ∈ [ComputeNodeConditionReady, ComputeNodeConditionStarted,
        ComputeNodeConditionInitialized, ComputeNodeConditionDeployed,
        ComputeNodeConditionPending, ComputeNodeConditionFailed],
        ¬ 0 < countType podlist t := by
      intro t ht hc
      rcases (countType_pos_iff podlist t).mp hc with ⟨p, hp, he⟩
      exact hnone p hp t ht he
    unfold getConditionFromPods
    rw [if_neg h0, if_neg h1,
      if_neg (hcount ComputeNodeConditionReady (by simp)),
      if_neg (hcount ComputeNodeConditionStarted (by simp)),
      if_neg (hcount ComputeNodeConditionInitialized (by simp)),
      if_neg (hcount ComputeNodeConditionDeployed (by simp)),
      if_neg (hcount ComputeNodeConditionPending (by simp)),
      if_neg (hcount ComputeNodeConditionFailed (by simp))]
  have happend : updateComputeNodeStatusCondition cn.status.conditions
      zeroCondition =
      (cn.status.conditions.map fun c =>
        if c.type = zeroCondition.type then zeroCondition
        else mergeOther zeroCondition c) ++ [zeroCondition] := by
    simp only [updateComputeNodeStatusCondition]
    have hfa : (cn.status.conditions.any fun c =>
        decide (c.type = zeroCondition.type)) = false := by
      rcases Bool.eq_false_or_eq_true (cn.status.conditions.any fun c =>
          decide (c.type = zeroCondition.type)) with h | h
      · rcases List.any_eq_true.mp h with ⟨c, hc, he⟩
        exact absurd (of_decide_eq_true he) (hclean c hc)
      · exact h
    rw [if_pos (Or.inr hfa)]
  refine ⟨hzero, ?_, ?_⟩
  · rw [hzero, happend, List.getLast?_concat]
  · refine ⟨zeroCondition, ?_, rfl⟩
    simp only [reconcileComputeNodeStatus]
    rw [hzero, happend]
    exact List.mem_append.mpr (Or.inr (by simp))

theorem rollup_fallthrough_empty_type_witness :
    getConditionFromPods [⟨⟨PodRunning, [], []⟩⟩] 4 = zeroCondition ∧
    (updateComputeNodeStatusCondition []
        (getConditionFromPods [⟨⟨PodRunning, [], []⟩⟩] 4)).getLast? =
      some zeroCondition ∧
    ∃ c ∈ (reconcileComputeNodeStatus [⟨⟨PodRunning, [], []⟩⟩]
        ⟨⟨"", [], []⟩, []⟩
        ⟨⟨ServiceTypeClusterIP, 1, []⟩,
         ⟨"", "", 0, [], ⟨"", []⟩⟩⟩ 4).status.conditions,
      c.type = "" :=
  rollup_fallthrough_empty_type [⟨⟨PodRunning, [], []⟩⟩]
    ⟨⟨"", [], []⟩, []⟩
    ⟨⟨ServiceTypeClusterIP, 1, []⟩, ⟨"", "", 0, [], ⟨"", []⟩⟩⟩ 4
    (by decide) (by decide) (by decide) (by decide)

/-- An error returned by a cluster-store call, carrying the two
classifications the controller tests (`apierrors.IsNotFound`,
`apierrors.IsAlreadyExists`) plus an identity so distinct errors stay
distinct. -/
structure KError where
  notFound : Bool
  alreadyExists : Bool
  id : Nat
deriving Repr, DecidableEq

/-- The sub-reconcilers one pass of `Reconcile` invokes, in order, for
tracing which of them ran. -/
inductive Step where
  | stepStatus
  | stepDeployment
  | stepService
  | stepConfigMap
deriving Repr, DecidableEq

/-- `ctrl.Result`: `Requeue` and `RequeueAfter` (seconds as `Nat`). -/
structure CtrlResult where
  requeue : Bool
  requeueAfter : Nat
deriving Repr, DecidableEq

/-- `defaultRequeueTime = 10 * time.Second` (line 44). -/
def defaultRequeueTime : Nat := 10

/-- The outcomes the cluster store and the sub-reconcilers would hand
one reconcile pass: the parent fetch result and the error (if any) each
of the four steps would return when invoked. -/
structure ReconcileEnv where
  getComputeNode : Except KError Unit
  statusResult : Option KError
  deploymentResult : Option KError
  serviceResult : Option KError
  configMapResult : Option KError
deriving Repr

/-- `Reconcile` (lines 70-106): a failed fetch short-circuits (delayed
requeue without error on not-found, immediate requeue with the error
otherwise); after a successful fetch the status step runs (its error
only logged), then the three reconcilers run unconditionally in fixed
order, their errors are collected, and the pass returns requeue-now
with the first error, or the 10-second delay when none failed. The
third component records the steps that were invoked. -/
def Reconcile (env : ReconcileEnv) : CtrlResult × Option KError × List Step :=
  match env.getComputeNode with
  | .error e =>
    if e.notFound then (⟨false, defaultRequeueTime⟩, none, [])
    else (⟨true, 0⟩, some e, [])
  | .ok _ =>
    let errors : List KError :=
      [env.deploymentResult, env.serviceResult, env.configMapResult].filterMap id
    let steps := [Step.stepStatus, Step.stepDeployment, Step.stepService,
      Step.stepConfigMap]
    if errors.length ≠ 0 then (⟨true, 0⟩, errors.head?, steps)
    else (⟨false, defaultRequeueTime⟩, none, steps)

/-- C7: a not-found fetch returns the fixed-delay requeue directive
with no error, any other fetch error returns the requeue-now directive
with that error, and in both cases neither the status step nor any
reconciler runs (the step trace is empty). -/
theorem reconcile_fetch_handling (env : ReconcileEnv) (e : KError) :
    (env.getComputeNode = .error e → e.notFound = true →
      Reconcile env = (⟨false, defaultRequeueTime⟩, none, [])) ∧
    (env.getComputeNode = .error e → e.notFound = false →
      Reconcile env = (⟨true, 0⟩, some e, [])) := by
  constructor <;> intro h1 h2 <;> simp [Reconcile, h1, h2]

theorem reconcile_fetch_handling_witness :
    Reconcile ⟨.error ⟨true, false, 0⟩, none, none, none, none⟩ =
      (⟨false, defaultRequeueTime⟩, none, []) :=
  (reconcile_fetch_handling ⟨.error ⟨true, false, 0⟩, none, none, none, none⟩
    ⟨true, false, 0⟩).1 rfl rfl

/-- C8: after a successful fetch, the status step's failure contributes
no error (the pass outcome is independent of it), all four steps run in
fixed order regardless of earlier failures, a failing reconciler yields
requeue-now with the first collected error in deployment, service,
config order, and all-success yields the 10-second delay with no
error. -/
theorem reconcile_error_aggregation (env : ReconcileEnv)
    (h : env.getComputeNode = .ok ()) :
    (Reconcile env).2.2 = [Step.stepStatus, Step.stepDeployment,
      Step.stepService, Step.stepConfigMap] ∧
    Reconcile env = Reconcile { env with statusResult := none } ∧
    (∀ e, env.deploymentResult = some e →
      (Reconcile env).1 = ⟨true, 0⟩ ∧ (Reconcile env).2.1 = some e) ∧
    (∀ e, env.deploymentResult = none → env.serviceResult = some e →
      (Reconcile env).1 = ⟨true, 0⟩ ∧ (Reconcile env).2.1 = some e) ∧
    (∀ e, env.deploymentResult = none → env.serviceResult = none →
      env.configMapResult = some e →
      (Reconcile env).1 = ⟨true, 0⟩ ∧ (Reconcile env).2.1 = some e) ∧
    (env.deploymentResult = none → env.serviceResult = none →
      env.configMapResult = none →
      Reconcile env = (⟨false, defaultRequeueTime⟩, none,
        [Step.stepStatus, Step.stepDeployment, Step.stepService,
         Step.stepConfigMap])) := by
  refine ⟨?_, ?_, ?_, ?_, ?_, ?_⟩
  · simp only [Reconcile, h]
    split <;> rfl
  · simp only [Reconcile, h]
  · intro e he
    simp [Reconcile, h, he]
  · intro e hd hs
    simp [Reconcile, h, hd, hs]
  · intro e hd hs hc
    simp [Reconcile, h, hd, hs, hc]
  · intro hd hs hc
    simp [Reconcile, h, hd, hs, hc]

theorem reconcile_error_aggregation_witness :
    (Reconcile ⟨.ok (), some ⟨false, false, 9⟩, none, some ⟨false, false, 1⟩,
        none⟩).1 = ⟨true, 0⟩ ∧
    (Reconcile ⟨.ok (), some ⟨false, false, 9⟩, none, some ⟨false, false, 1⟩,
        none⟩).2.1 = some ⟨false, false, 1⟩ :=
  (reconcile_error_aggregation
      ⟨.ok (), some ⟨false, false, 9⟩, none, some ⟨false, false, 1⟩, none⟩
      rfl).2.2.2.1 ⟨false, false, 1⟩ rfl rfl

/-- Which path a create-or-update reconciler took. -/
inductive ArtifactAction where
  | created
  | updated
  | aborted
deriving Repr, DecidableEq

/-- `createDeployment` (lines 119-126), with the outcome of
`r.Deployment.Create` as an oracle: `err != nil &&
IsAlreadyExists(err) || err == nil` returns nil, otherwise the error is
returned. -/
def createDeployment (createErr : Option KError) : Option KError :=
  match createErr with
  | none => none
  | some e => if e.alreadyExists then none else some e

/-- `createService` (lines 156-163), same shape as `createDeployment`. -/
def createService (createErr : Option KError) : Option KError :=
  match createErr with
  | none => none
  | some e => if e.alreadyExists then none else some e

/-- `createConfigMap` (lines 244-251), same shape as
`createDeployment`. -/
def createConfigMap (createErr : Option KError) : Option KError :=
  match createErr with
  | none => none
  | some e => if e.alreadyExists then none else some e

/-- `reconcileDeployment` (lines 108-117) with the store lookup and the
update/create outcomes as oracles: a failed lookup aborts with its
error; a present artifact is updated; an absent one is built and
created through `createDeployment`. -/
def reconcileDeployment (getResult : Except KError Bool)
    (updateErr createErr : Option KError) : Option KError × ArtifactAction :=
  match getResult with
  | .error e => (some e, ArtifactAction.aborted)
  | .ok true => (updateErr, ArtifactAction.updated)
  | .ok false => (createDeployment createErr, ArtifactAction.created)

/-- `reconcileService` (lines 145-154), same shape. -/
def reconcileService (getResult : Except KError Bool)
    (updateErr createErr : Option KError) : Option KError × ArtifactAction :=
  match getResult with
  | .error e => (some e, ArtifactAction.aborted)
  | .ok true => (updateErr, ArtifactAction.updated)
  | .ok false => (createService createErr, ArtifactAction.created)

/-- `reconcileConfigMap` (lines 270-279), same shape. -/
def reconcileConfigMap (getResult : Except KError Bool)
    (updateErr createErr : Option KError) : Option KError × ArtifactAction :=
  match getResult with
  | .error e => (some e, ArtifactAction.aborted)
  | .ok true => (updateErr, ArtifactAction.updated)
  | .ok false => (createConfigMap createErr, ArtifactAction.created)

/-- C9: creation is idempotent under races. For each of the three owned
artifacts, when the lookup reports the artifact absent the reconciler
takes the creation path and returns the creation outcome; a creation
failing with already-exists returns success (nil) exactly as a
successful creation does, and any other creation error is returned. -/
theorem creation_idempotent (updateErr createErr : Option KError) (e : KError) :
    ((reconcileDeployment (.ok false) updateErr createErr).2 =
        ArtifactAction.created ∧
      (reconcileService (.ok false) updateErr createErr).2 =
        ArtifactAction.created ∧
      (reconcileConfigMap (.ok false) updateErr createErr).2 =
        ArtifactAction.created) ∧
    ((reconcileDeployment (.ok false) updateErr createErr).1 =
        createDeployment createErr ∧
      (reconcileService (.ok false) updateErr createErr).1 =
        createService createErr ∧
      (reconcileConfigMap (.ok false) updateErr createErr).1 =
        createConfigMap createErr) ∧
    (createDeployment none = none ∧ createService none = none ∧
      createConfigMap none = none) ∧
    (e.alreadyExists = true →
      createDeployment (some e) = none ∧ createService (some e) = none ∧
      createConfigMap (some e) = none) ∧
    (e.alreadyExists = false →
      createDeployment (some e) = some e ∧ createService (some e) = some e ∧
      createConfigMap (some e) = some e) := by
  refine ⟨⟨rfl, rfl, rfl⟩, ⟨rfl, rfl, rfl⟩, ⟨rfl, rfl, rfl⟩, ?_, ?_⟩
  · intro ha
    simp [createDeployment, createService, createConfigMap, ha]
  · intro ha
    simp [createDeployment, createService, createConfigMap, ha]

theorem creation_idempotent_witness :
    createDeployment (some ⟨false, true, 3⟩) = none ∧
    createService (some ⟨false, true, 3⟩) = none ∧
    createConfigMap (some ⟨false, true, 3⟩) = none :=
  (creation_idempotent none (some ⟨false, true, 3⟩) ⟨false, true, 3⟩).2.2.2.1 rfl

end ComputeNodeController
